import Mathlib

/-!
Verification development for the Sproutcast plant-analysis core.

The C++ core is shallowly embedded: bytes are natural numbers below 256,
byte strings are lists of naturals, `double` arithmetic is modelled by `ℚ`,
and the stateful `ChangeDetector` / `MqttClient` objects become explicit
state records threaded through their member functions.
-/

/- ========== Transport: minimal MQTT 3.1.1 client (mqtt_client.cpp) ========== -/

/-- `encode_varint` from mqtt_client.cpp: the MQTT remaining-length encoder.
The C++ do-while loop emits `value % 128` (with the continuation bit 128 added
when more bytes follow) and continues on `value / 128`. -/
def encode_varint (v : ℕ) : List ℕ :=
  if h : v / 128 > 0 then (v % 128 + 128) :: encode_varint (v / 128) else [v % 128]
termination_by v
decreasing_by
  exact Nat.div_lt_self (Nat.pos_of_ne_zero (by rintro rfl; simp at h)) (by norm_num)

/-- Little-endian base-128 decoder, used to state correctness of `encode_varint`. -/
def decode_varint (l : List ℕ) : ℕ :=
  match l with
  | [] => 0
  | b :: rest => b % 128 + 128 * decode_varint rest

/-- `append_utf8_string` from mqtt_client.cpp: appends a 2-byte big-endian
length prefixed string.  The C++ casts `s.size()` to `uint16_t` (reduction
modulo 2^16) before the `htons` byte swap, then appends the full string. -/
def append_utf8_string (buf s : List ℕ) : List ℕ :=
  buf ++ [s.length % 65536 / 256, s.length % 65536 % 256] ++ s

/-- `MqttClient` state: `sock_` is the socket fd, `none` standing for the
C++ sentinel value `-1` (never connected, or closed). -/
structure MqttClient where
  sock_ : Option ℕ

/-- A freshly constructed client (`MqttClient::MqttClient` sets `sock_ = -1`). -/
def MqttClient.make : MqttClient := ⟨none⟩

/-- `MqttClient::disconnect`: closes the socket and resets `sock_` to the
sentinel; the best-effort 2-byte DISCONNECT write does not change the state. -/
def MqttClient.disconnect (_c : MqttClient) : MqttClient := ⟨none⟩

/-- `MqttClient::publish`: returns `none` when `sock_ == -1` (the C++ returns
`false` before any socket write); otherwise returns the exact packet bytes
handed to `write_all`.  `qos` is accepted and ignored (`(void)qos`). -/
def MqttClient.publish (c : MqttClient) (topic payload : List ℕ) (_qos : ℤ)
    (retain : Bool) : Option (List ℕ) :=
  match c.sock_ with
  | none => none
  | some _ =>
    let var_header := append_utf8_string [] topic
    let remaining := var_header ++ payload
    let rl := encode_varint (remaining.length % 2 ^ 32)
    let header := 0x30 ||| (if retain then 0x01 else 0)
    some (header :: rl ++ remaining)

/- ========== Plant analysis (leaf_area.cpp) ========== -/

/-- `PlantType` from leaf_area.hpp. -/
inductive PlantType where
  | SPROUT
  | PLANT
deriving DecidableEq, Repr

/-- A `cv::Scalar` restricted to its first three channels, accessed by index
as in the C++ (`[0]`, `[1]`, `[2]`).  Mean colors store B,G,R in channels
0,1,2; HSV colors store H,S,V in channels 0,1,2. -/
structure Scalar3 where
  c0 : ℚ := 0
  c1 : ℚ := 0
  c2 : ℚ := 0
deriving DecidableEq, Repr

/-- The shape features `classifyPlantType` extracts from the largest Otsu
contour of the ROI crop: `calculateSolidity`, the fitted-ellipse aspect
ratio, and the skeleton connection-point count near the bottom center.
`none` models the `contours.empty()` case where no contour is found. -/
structure RoiShapeFeatures where
  solidity : ℚ
  aspectRatio : ℚ
  originConnections : ℕ
deriving DecidableEq, Repr

/-- `classifyPlantType` from leaf_area.cpp: first-match decision list over
pixel area, physical height, crop solidity/aspect ratio, and skeleton
origin connections. -/
def classifyPlantType (roiFeatures : Option RoiShapeFeatures) (bboxHeight : ℚ)
    (areaPixels : ℚ) (scalePxPerCm : ℚ) : PlantType :=
  if areaPixels < 2500 then PlantType.SPROUT
  else if scalePxPerCm > 0 ∧ bboxHeight / scalePxPerCm < 5 then PlantType.SPROUT
  else
    match roiFeatures with
    | none => PlantType.PLANT
    | some f =>
      if f.solidity > 3 / 4 ∧ f.aspectRatio < 3 ∧ areaPixels < 4000 then PlantType.SPROUT
      else if f.originConnections ≤ 3 ∧ areaPixels < 3500 then PlantType.SPROUT
      else PlantType.PLANT

/-- `calculateHealthScore` from leaf_area.cpp: green-bias based score with a
sprout dampening transform, clamped to [0,100] on return. -/
def calculateHealthScore (meanColor : Scalar3) (t : PlantType) : ℚ :=
  let b := meanColor.c0
  let g := meanColor.c1
  let r := meanColor.c2
  let greenBias := g - (r + b) / 2
  let healthScore := 60 + greenBias / 2
  let adjusted := if t = PlantType.SPROUT then healthScore * (9 / 10) + 10 else healthScore
  max 0 (min 100 adjusted)

/-- The health score as stored on a processed instance by
`processSprout`/`processPlant`: `calculateHealthScore` minus the disease
reduction `5·brownSpotCount + 3·yellowAreaCount`, floored at 0. -/
def healthScoreWithDisease (meanColor : Scalar3) (t : PlantType)
    (brownSpotCount yellowAreaCount : ℕ) : ℚ :=
  max 0 (calculateHealthScore meanColor t -
    ((brownSpotCount : ℚ) * 5 + (yellowAreaCount : ℚ) * 3))

/-- The health-score formula exactly as the specification words it: the base
`60 + greenBias/2` is clamped to [0,100] first, the SPROUT dampening
`score·0.9 + 10` is applied to the clamped value, and the disease reduction
is subtracted with a floor at 0. -/
def specHealthScore (meanColor : Scalar3) (t : PlantType)
    (brownSpotCount yellowAreaCount : ℕ) : ℚ :=
  let greenBias := meanColor.c1 - (meanColor.c2 + meanColor.c0) / 2
  let base := max 0 (min 100 (60 + greenBias / 2))
  let score := if t = PlantType.SPROUT then base * (9 / 10) + 10 else base
  max 0 (score - ((brownSpotCount : ℚ) * 5 + (yellowAreaCount : ℚ) * 3))

/-- The health-score formula amended to the code's order of operations: the
SPROUT dampening acts on the unclamped base, the clamp to [0,100] comes
after it, then the disease reduction is subtracted with a floor at 0.
(Clamp written as `min 100 (max 0 ·)`, equal to the code's
`max 0 (min 100 ·)`.) -/
def specHealthScoreAmended (meanColor : Scalar3) (t : PlantType)
    (brownSpotCount yellowAreaCount : ℕ) : ℚ :=
  let greenBias := meanColor.c1 - (meanColor.c2 + meanColor.c0) / 2
  let base := 60 + greenBias / 2
  let damped := if t = PlantType.SPROUT then base * (9 / 10) + 10 else base
  max 0 (min 100 (max 0 damped) - ((brownSpotCount : ℚ) * 5 + (yellowAreaCount : ℚ) * 3))

/-- `PlantInstance` (leaf_area.hpp), restricted to the fields the analysed
components read: instance type, pixel/physical area, BGR mean color, the
shape descriptors consumed by the `ChangeDetector`, disease-marker counts
and the final health score. -/
structure PlantInstance where
  type : PlantType := PlantType.SPROUT
  areaPixels : ℚ := 0
  areaCm2 : ℚ := 0
  meanColor : Scalar3 := {}
  solidity : ℚ := 0
  circularity : ℚ := 0
  eccentricity : ℚ := 0
  compactness : ℚ := 0
  brownSpotCount : ℕ := 0
  yellowAreaCount : ℕ := 0
  healthScore : ℚ := 0
deriving DecidableEq, Repr

/-- One candidate contour as it reaches the per-contour loop of
`analyzePlants`, carrying its `cv::contourArea` value, its bounding-box
height, and the image-derived quantities that the (pixel-level) crop
analyses of `classifyPlantType` / `processSprout` / `processPlant` produce
for it. -/
structure ContourData where
  area : ℚ := 0
  bboxHeight : ℚ := 0
  roiFeatures : Option RoiShapeFeatures := none
  meanColor : Scalar3 := {}
  solidity : ℚ := 0
  circularity : ℚ := 0
  eccentricity : ℚ := 0
  compactness : ℚ := 0
  brownSpotCount : ℕ := 0
  yellowAreaCount : ℕ := 0
deriving DecidableEq, Repr

/-- The per-contour body of `analyzePlants`: classify the contour and build
the instance as `processSprout`/`processPlant` do (`areaPixels` is the
contour's `cv::contourArea`, `areaCm2` divides by `scale²` when the scale
is known, the health score applies the disease reduction). -/
def processInstance (scalePxPerCm : ℚ) (c : ContourData) : PlantInstance :=
  let t := classifyPlantType c.roiFeatures c.bboxHeight c.area scalePxPerCm
  { type := t
    areaPixels := c.area
    areaCm2 := if scalePxPerCm > 0 then c.area / (scalePxPerCm * scalePxPerCm) else 0
    meanColor := c.meanColor
    solidity := c.solidity
    circularity := c.circularity
    eccentricity := c.eccentricity
    compactness := c.compactness
    brownSpotCount := c.brownSpotCount
    yellowAreaCount := c.yellowAreaCount
    healthScore := healthScoreWithDisease c.meanColor t c.brownSpotCount c.yellowAreaCount }

/-- `PlantAnalysisResult` (leaf_area.hpp), restricted to the aggregate
fields the claims concern. -/
structure PlantAnalysisResult where
  instances : List PlantInstance
  sproutCount : ℕ
  plantCount : ℕ
  totalInstanceCount : ℕ
  totalAreaPixels : ℚ
  totalAreaCm2 : ℚ
  averageHealth : ℚ
deriving DecidableEq, Repr

/-- The instance-building phase of `analyzePlants` (leaf_area.cpp): every
contour with `cv::contourArea > 50` is classified and processed into an
instance and accumulated into the totals; smaller contours are skipped.
The counts are recomputed from the instance list afterwards, and
`averageHealth` is the mean health over the accepted instances (0 when
there are none). -/
def analyzePlants (scalePxPerCm : ℚ) (contours : List ContourData) : PlantAnalysisResult :=
  let kept := contours.filter fun c => decide (c.area > 50)
  let instances := kept.map (processInstance scalePxPerCm)
  { instances := instances
    sproutCount := (instances.filter fun i => decide (i.type = PlantType.SPROUT)).length
    plantCount := (instances.filter fun i => decide (i.type ≠ PlantType.SPROUT)).length
    totalInstanceCount := instances.length
    totalAreaPixels := (instances.map fun i => i.areaPixels).sum
    totalAreaCm2 := (instances.map fun i => i.areaCm2).sum
    averageHealth :=
      if instances.isEmpty then 0
      else (instances.map fun i => i.healthScore).sum / (instances.length : ℚ) }

/- ========== ChangeDetector (change_detector.cpp) ========== -/

/-- `ChangeDetector::BaselineData` (change_detector.hpp): the rolling scene
aggregate.  `avgColor` is an HSV `cv::Scalar`, split here into channels. -/
structure BaselineData where
  plantCount : ℤ := 0
  totalArea : ℚ := 0
  avgColorH : ℚ := 0
  avgColorS : ℚ := 0
  avgColorV : ℚ := 0
  avgSolidity : ℚ := 0
  avgCircularity : ℚ := 0
  avgEccentricity : ℚ := 0
  isValid : Bool := false
deriving DecidableEq, Repr

/-- `ChangeDetectionMetrics` (change_detector.hpp), without the timestamp. -/
structure ChangeDetectionMetrics where
  totalAreaChange : ℚ := 0
  plantCountChange : ℤ := 0
  avgColorChangeH : ℚ := 0
  avgColorChangeS : ℚ := 0
  avgColorChangeV : ℚ := 0
  morphologyChange : ℚ := 0
  significantChange : Bool := false
deriving DecidableEq, Repr

/-- The `ChangeDetector` object state: its private `baseline_` member. -/
structure ChangeDetectorState where
  baseline : BaselineData := {}
deriving DecidableEq, Repr

/-- A freshly constructed `ChangeDetector` (default `BaselineData`, not valid). -/
def ChangeDetectorState.make : ChangeDetectorState := {}

def AREA_CHANGE_THRESHOLD : ℚ := 1 / 10

def COUNT_CHANGE_THRESHOLD : ℤ := 1

def COLOR_CHANGE_THRESHOLD_H : ℚ := 8

def COLOR_CHANGE_THRESHOLD_S : ℚ := 12

def COLOR_CHANGE_THRESHOLD_V : ℚ := 15

def MORPHOLOGY_CHANGE_THRESHOLD : ℚ := 2 / 25

/-- `ChangeDetector::computeBaseline`, parametric in `bgrToHsv`, the
pixel-exact `cv::cvtColor(BGR→HSV)` conversion the C++ applies to each
instance's mean color before averaging.  For the empty list the default
(invalid) baseline is returned; otherwise every instance contributes to the
sums and `validInstances = instances.size()`, so the averages divide by the
list length and `isValid` is set. -/
def computeBaseline (bgrToHsv : Scalar3 → Scalar3)
    (instances : List PlantInstance) : BaselineData :=
  if instances.isEmpty then {}
  else
    let n : ℚ := (instances.length : ℚ)
    { plantCount := (instances.length : ℤ)
      totalArea := (instances.map fun i => i.areaPixels).sum
      avgColorH := (instances.map fun i => (bgrToHsv i.meanColor).c0).sum / n
      avgColorS := (instances.map fun i => (bgrToHsv i.meanColor).c1).sum / n
      avgColorV := (instances.map fun i => (bgrToHsv i.meanColor).c2).sum / n
      avgSolidity := (instances.map fun i => i.solidity).sum / n
      avgCircularity := (instances.map fun i => i.circularity).sum / n
      avgEccentricity := (instances.map fun i => i.eccentricity).sum / n
      isValid := true }

/-- `ChangeDetector::calculateMorphologyScore`: 0 for the empty list, else
the mean composite `0.3·solidity + 0.3·circularity + 0.2·(1−eccentricity)
+ 0.2·compactness` over the instances. -/
def calculateMorphologyScore (instances : List PlantInstance) : ℚ :=
  if instances.isEmpty then 0
  else
    (instances.map fun i =>
      i.solidity * (3 / 10) + i.circularity * (3 / 10) +
        (1 - i.eccentricity) * (2 / 10) + i.compactness * (2 / 10)).sum /
      (instances.length : ℚ)

/-- `ChangeDetector::analyzeFrame`: bootstraps the baseline on the first
call (returning the default, all-zero metrics), otherwise computes the
deltas against the stored baseline and the significance disjunction.
Returns the metrics together with the updated detector state. -/
def analyzeFrame (bgrToHsv : Scalar3 → Scalar3) (st : ChangeDetectorState)
    (instances : List PlantInstance) : ChangeDetectionMetrics × ChangeDetectorState :=
  let current := computeBaseline bgrToHsv instances
  if !st.baseline.isValid then
    ({}, ⟨{ current with isValid := true }⟩)
  else
    let totalAreaChange :=
      if st.baseline.totalArea > 0 then
        |current.totalArea - st.baseline.totalArea| / st.baseline.totalArea
      else 0
    let plantCountChange := |current.plantCount - st.baseline.plantCount|
    let dH := |current.avgColorH - st.baseline.avgColorH|
    let dS := |current.avgColorS - st.baseline.avgColorS|
    let dV := |current.avgColorV - st.baseline.avgColorV|
    let morph := |calculateMorphologyScore instances - calculateMorphologyScore []|
    ({ totalAreaChange := totalAreaChange
       plantCountChange := plantCountChange
       avgColorChangeH := dH
       avgColorChangeS := dS
       avgColorChangeV := dV
       morphologyChange := morph
       significantChange :=
         decide (totalAreaChange > AREA_CHANGE_THRESHOLD) ||
         decide (plantCountChange ≥ COUNT_CHANGE_THRESHOLD) ||
         decide (dH > COLOR_CHANGE_THRESHOLD_H) ||
         decide (dS > COLOR_CHANGE_THRESHOLD_S) ||
         decide (dV > COLOR_CHANGE_THRESHOLD_V) ||
         decide (morph > MORPHOLOGY_CHANGE_THRESHOLD) }, st)

/-- `ChangeDetector::updateBaseline`: recompute and force-validate. -/
def updateBaseline (bgrToHsv : Scalar3 → Scalar3) (_st : ChangeDetectorState)
    (instances : List PlantInstance) : ChangeDetectorState :=
  ⟨{ computeBaseline bgrToHsv instances with isValid := true }⟩

/-- `ChangeDetector::reset`: back to the default (invalid) baseline. -/
def ChangeDetectorState.reset (_st : ChangeDetectorState) : ChangeDetectorState := ⟨{}⟩

/-- `ChangeDetector::hasBaseline`. -/
def hasBaseline (st : ChangeDetectorState) : Bool := st.baseline.isValid

/- ========== Helper lemmas ========== -/

lemma encode_varint_decode (v : ℕ) : decode_varint (encode_varint v) = v := by
  induction v using encode_varint.induct with
  | case1 v h ih =>
    rw [encode_varint, dif_pos h, decode_varint, ih]
    omega
  | case2 v h =>
    rw [encode_varint, dif_neg h, decode_varint, decode_varint]
    omega

lemma encode_varint_ne_nil (v : ℕ) : encode_varint v ≠ [] := by
  rw [encode_varint]
  split <;> simp

lemma encode_varint_getLastD (v : ℕ) : ∀ d, (encode_varint v).getLastD d < 128 := by
  induction v using encode_varint.induct with
  | case1 v h ih =>
    intro d
    rw [encode_varint, dif_pos h, List.getLastD_cons]
    exact ih _
  | case2 v h =>
    intro d
    rw [encode_varint, dif_neg h]
    show v % 128 < 128
    omega

lemma encode_varint_dropLast (v : ℕ) :
    ∀ b ∈ (encode_varint v).dropLast, 128 ≤ b := by
  induction v using encode_varint.induct with
  | case1 v h ih =>
    intro b hb
    rw [encode_varint, dif_pos h,
      List.dropLast_cons_of_ne_nil (encode_varint_ne_nil _)] at hb
    rcases List.mem_cons.mp hb with hb | hb
    · omega
    · exact ih b hb
  | case2 v h =>
    intro b hb
    rw [encode_varint, dif_neg h] at hb
    simp at hb

/- ========== Claim theorems: transport ========== -/

/-- Claim C7: `encode_varint` is the 7-bit-per-byte little-endian
continuation-bit encoding — decoding recovers every value, every byte
before the last carries the continuation bit 0x80, the last does not —
and in particular 127 ↦ {0x7F}, 128 ↦ {0x80,0x01}, 16383 ↦ {0xFF,0x7F},
16384 ↦ {0x80,0x80,0x01}. -/
theorem encode_varint_correct :
    (∀ v : ℕ, decode_varint (encode_varint v) = v ∧
      ((encode_varint v).dropLast.all fun b => decide (128 ≤ b)) = true ∧
      (encode_varint v).getLastD 128 < 128) ∧
    encode_varint 127 = [0x7F] ∧
    encode_varint 128 = [0x80, 0x01] ∧
    encode_varint 16383 = [0xFF, 0x7F] ∧
    encode_varint 16384 = [0x80, 0x80, 0x01] := by
  have e1 : encode_varint 1 = [1] := by rw [encode_varint]; norm_num
  have e127 : encode_varint 127 = [127] := by rw [encode_varint]; norm_num
  have e128 : encode_varint 128 = [128, 1] := by rw [encode_varint]; norm_num [e1]
  refine ⟨fun v => ⟨encode_varint_decode v, ?_, encode_varint_getLastD v 128⟩,
    e127, e128, ?_, ?_⟩
  · simp only [List.all_eq_true, decide_eq_true_eq]
    exact encode_varint_dropLast v
  · rw [encode_varint]; norm_num [e127]
  · rw [encode_varint]; norm_num [e128]

/-- Claim C8: `publish` on a client that never connected (fresh construction)
or whose socket has been closed (`disconnect`) returns false without
performing any socket I/O — modelled as `none`: no packet bytes reach the
socket. -/
theorem publish_unconnected_no_io (topic payload : List ℕ) (qos : ℤ)
    (retain : Bool) (c : MqttClient) :
    MqttClient.publish MqttClient.make topic payload qos retain = none ∧
    MqttClient.publish (MqttClient.disconnect c) topic payload qos retain = none ∧
    MqttClient.publish ⟨none⟩ topic payload qos retain = none :=
  ⟨rfl, rfl, rfl⟩

/-- Claim C10: the 2-byte length prefix written by `append_utf8_string`
encodes the string's byte length reduced modulo 2^16 while the full string
is appended; the prefix value equals the true length exactly when the
string is shorter than 65536 bytes. -/
theorem append_utf8_string_mod_prefixed (buf s : List ℕ) :
    append_utf8_string buf s =
      buf ++ [s.length % 65536 / 256, s.length % 65536 % 256] ++ s ∧
    256 * (s.length % 65536 / 256) + s.length % 65536 % 256 = s.length % 65536 ∧
    (256 * (s.length % 65536 / 256) + s.length % 65536 % 256 = s.length ↔
      s.length < 65536) :=
  ⟨rfl, by omega, by omega⟩

/-- Claim C6: on a connected session, `publish` emits exactly one fixed-header
byte `0x30 | (0x01 when retain)`, the varint of the remaining length
`2 + |topic| + |payload|`, the 2-byte big-endian topic length, the topic
bytes, and the raw payload with no length prefix of its own; the bytes are
identical for every `qos` value. -/
theorem publish_packet_bytes (fd : ℕ) (topic payload : List ℕ) (qos : ℤ)
    (retain : Bool) (h1 : topic.length < 2 ^ 16)
    (h2 : 2 + topic.length + payload.length < 2 ^ 32) :
    MqttClient.publish ⟨some fd⟩ topic payload qos retain =
      some ((0x30 ||| if retain then 0x01 else 0) ::
        (encode_varint (2 + topic.length + payload.length) ++
          ([topic.length / 256, topic.length % 256] ++ topic ++ payload))) ∧
    (∀ qos' : ℤ, MqttClient.publish ⟨some fd⟩ topic payload qos retain =
      MqttClient.publish ⟨some fd⟩ topic payload qos' retain) := by
  constructor
  · show some _ = some _
    have hlen : (append_utf8_string [] topic ++ payload).length =
        2 + topic.length + payload.length := by
      simp [append_utf8_string]
      omega
    have hmod : topic.length % 65536 = topic.length := by omega
    simp only [MqttClient.publish, hlen, Nat.mod_eq_of_lt h2,
      append_utf8_string, hmod, List.nil_append, List.cons_append,
      List.append_assoc]
    have hrem : (topic.length / 256 :: topic.length % 256 ::
        (topic ++ payload)).length % 2 ^ 32 =
        2 + topic.length + payload.length := by
      simp only [List.length_cons, List.length_append]
      omega
    rw [hrem]
  · intro qos'
    rfl

/-- Witness for C6 at a concrete connected session, topic `[116]`, and
payload `[104, 105]`. -/
theorem publish_packet_bytes_witness :
    MqttClient.publish ⟨some 3⟩ [116] [104, 105] 0 false =
      some [0x30, 5, 0, 1, 116, 104, 105] := by
  have h := (publish_packet_bytes 3 [116] [104, 105] 0 false (by norm_num)
    (by norm_num)).1
  rw [h]
  rw [show (2 + [116].length + [104, 105].length) = 5 by rfl]
  rw [show encode_varint 5 = [5] by rw [encode_varint]; norm_num]
  rfl

/- ========== Claim theorems: classification and health score ========== -/

/-- Claim C3: any region with pixel area below 2500 px² is classified SPROUT
regardless of crop content, bounding box, or scale; and a region of area
6000 px² with known scale and a 10 cm bounding-box height is classified
PLANT for every crop content, because every later SPROUT rule requires
area below 4000 or 3500 px². -/
theorem classifyPlantType_small_sprout_large_plant :
    (∀ (f : Option RoiShapeFeatures) (bh area scale : ℚ),
      area < 2500 → classifyPlantType f bh area scale = PlantType.SPROUT) ∧
    (∀ (f : Option RoiShapeFeatures) (bh scale : ℚ),
      scale > 0 → bh / scale = 10 →
      classifyPlantType f bh 6000 scale = PlantType.PLANT) := by
  constructor
  · intro f bh area scale h
    rw [classifyPlantType.eq_def, if_pos h]
  · intro f bh scale hscale hheight
    rw [classifyPlantType.eq_def, if_neg (by norm_num),
      if_neg (by rw [hheight]; rintro ⟨-, h5⟩; norm_num at h5)]
    cases f with
    | none => rfl
    | some f' =>
      dsimp only
      rw [if_neg (by rintro ⟨-, -, h4⟩; norm_num at h4),
        if_neg (by rintro ⟨-, h35⟩; norm_num at h35)]

/-- Witness for C3: a 2000 px² region with unknown scale is a SPROUT and a
6000 px² region at scale 2 px/cm with a 20 px (10 cm) bounding box is a
PLANT. -/
theorem classifyPlantType_witness :
    classifyPlantType none 10 2000 0 = PlantType.SPROUT ∧
    classifyPlantType none 20 6000 2 = PlantType.PLANT :=
  ⟨classifyPlantType_small_sprout_large_plant.1 none 10 2000 0 (by norm_num),
    classifyPlantType_small_sprout_large_plant.2 none 20 2 (by norm_num)
      (by norm_num)⟩

/-- Counterexample for claim C4: the claim clamps the base score to [0,100]
before the SPROUT dampening.  At mean color B=200, G=0, R=200 (greenBias
−200, base −40) with no disease markers, the claim's formula yields 10 while
the code — which dampens first and clamps afterwards — yields 0. -/
theorem healthScore_claim_counterexample :
    healthScoreWithDisease ⟨200, 0, 200⟩ PlantType.SPROUT 0 0 = 0 ∧
    specHealthScore ⟨200, 0, 200⟩ PlantType.SPROUT 0 0 = 10 ∧
    healthScoreWithDisease ⟨200, 0, 200⟩ PlantType.SPROUT 0 0 ≠
      specHealthScore ⟨200, 0, 200⟩ PlantType.SPROUT 0 0 := by
  refine ⟨?_, ?_, ?_⟩ <;>
    norm_num [healthScoreWithDisease, calculateHealthScore, specHealthScore]

/-- Claim C4 amended: the SPROUT dampening `score·0.9 + 10` acts on the
unclamped base `60 + greenBias/2`; the clamp to [0,100] is applied after
it; then 5 points per brown spot and 3 per yellow area are subtracted with
a floor at 0, and the final score stays within [0,100]. -/
theorem healthScore_amended (mc : Scalar3) (t : PlantType)
    (brown yellow : ℕ) :
    healthScoreWithDisease mc t brown yellow =
      specHealthScoreAmended mc t brown yellow ∧
    0 ≤ healthScoreWithDisease mc t brown yellow ∧
    healthScoreWithDisease mc t brown yellow ≤ 100 := by
  refine ⟨?_, le_max_left _ _, ?_⟩
  · rw [healthScoreWithDisease, specHealthScoreAmended, calculateHealthScore]
    rw [max_min_distrib_left]
    norm_num
  · rw [healthScoreWithDisease]
    refine max_le (by norm_num) ?_
    have h1 : calculateHealthScore mc t ≤ 100 := by
      rw [calculateHealthScore]
      exact max_le (by norm_num) (min_le_left _ _)
    have h2 : (0 : ℚ) ≤ (brown : ℚ) * 5 + (yellow : ℚ) * 3 := by positivity
    linarith

/- ========== Claim theorems: analyzePlants noise floor ========== -/

/-- Claim C9: every instance produced by `analyzePlants` has contour pixel
area strictly greater than 50 px², and contours with area at or below
50 px² contribute nothing: the result is unchanged when they are removed
from the input. -/
theorem analyzePlants_noise_floor (scale : ℚ) (contours : List ContourData) :
    (∀ i ∈ (analyzePlants scale contours).instances, i.areaPixels > 50) ∧
    analyzePlants scale contours =
      analyzePlants scale (contours.filter fun c => decide (c.area > 50)) := by
  constructor
  · intro i hi
    simp only [analyzePlants, List.mem_map, List.mem_filter,
      decide_eq_true_eq] at hi
    obtain ⟨c, ⟨-, hc⟩, rfl⟩ := hi
    exact hc
  · have hff : ((contours.filter fun c => decide (c.area > 50)).filter
        fun c => decide (c.area > 50)) =
        contours.filter fun c => decide (c.area > 50) := by
      rw [List.filter_filter]
      simp
    rw [analyzePlants, analyzePlants, hff]

/-- Witness for C9 on the concrete contour list `[area 100, area 10]`: the
kept instance has area above the floor, and dropping the 10 px² contour
leaves the result unchanged. -/
theorem analyzePlants_noise_floor_witness :
    (processInstance 0 { area := 100 }).areaPixels > 50 ∧
    analyzePlants 0 [{ area := 100 }, { area := 10 }] =
      analyzePlants 0 ([{ area := 100 }, { area := 10 }].filter
        fun c => decide (c.area > 50)) := by
  constructor
  · refine (analyzePlants_noise_floor 0 [{ area := 100 }, { area := 10 }]).1
      (processInstance 0 { area := 100 }) ?_
    simp [analyzePlants]
    exact ⟨{ area := 100 }, ⟨Or.inl rfl, by norm_num⟩, rfl⟩
  · exact (analyzePlants_noise_floor 0 [{ area := 100 }, { area := 10 }]).2

/- ========== Claim theorems: ChangeDetector ========== -/

/-- Claim C2: the detector is a two-state machine.  From UNINITIALIZED
(fresh detector or after `reset`), the first `analyzeFrame` call — for any
instance list, the empty one included — reports `significantChange = false`
with every delta zero and moves the detector to BASELINED; `reset` always
returns to UNINITIALIZED; `updateBaseline` always force-sets the baseline. -/
theorem changeDetector_two_state (conv : Scalar3 → Scalar3)
    (st : ChangeDetectorState) (instances : List PlantInstance)
    (h : hasBaseline st = false) :
    ((analyzeFrame conv st instances).1.significantChange = false ∧
      (analyzeFrame conv st instances).1.totalAreaChange = 0 ∧
      (analyzeFrame conv st instances).1.plantCountChange = 0 ∧
      (analyzeFrame conv st instances).1.avgColorChangeH = 0 ∧
      (analyzeFrame conv st instances).1.avgColorChangeS = 0 ∧
      (analyzeFrame conv st instances).1.avgColorChangeV = 0 ∧
      (analyzeFrame conv st instances).1.morphologyChange = 0 ∧
      hasBaseline (analyzeFrame conv st instances).2 = true) ∧
    hasBaseline ChangeDetectorState.make = false ∧
    (∀ st' : ChangeDetectorState, hasBaseline st'.reset = false) ∧
    (∀ (st' : ChangeDetectorState) (l : List PlantInstance),
      hasBaseline (updateBaseline conv st' l) = true) := by
  rw [hasBaseline] at h
  refine ⟨?_, rfl, fun st' => rfl, fun st' l => rfl⟩
  simp [analyzeFrame, h, hasBaseline]

/-- Witness for C2: a fresh detector's first call on the empty instance
list reports no change, all-zero deltas, and establishes the baseline. -/
theorem changeDetector_two_state_witness :
    (analyzeFrame (fun c => c) ChangeDetectorState.make []).1.significantChange = false ∧
    (analyzeFrame (fun c => c) ChangeDetectorState.make []).1.totalAreaChange = 0 ∧
    (analyzeFrame (fun c => c) ChangeDetectorState.make []).1.plantCountChange = 0 ∧
    (analyzeFrame (fun c => c) ChangeDetectorState.make []).1.avgColorChangeH = 0 ∧
    (analyzeFrame (fun c => c) ChangeDetectorState.make []).1.avgColorChangeS = 0 ∧
    (analyzeFrame (fun c => c) ChangeDetectorState.make []).1.avgColorChangeV = 0 ∧
    (analyzeFrame (fun c => c) ChangeDetectorState.make []).1.morphologyChange = 0 ∧
    hasBaseline (analyzeFrame (fun c => c) ChangeDetectorState.make []).2 = true :=
  (changeDetector_two_state (fun c => c) ChangeDetectorState.make [] rfl).1

/-- Claim C5: on a baselined detector the reported morphology change equals
`|compositeScore(current) − compositeScore(empty list)|`, and the composite
score of the empty list is 0 — the comparison is against an empty list,
not against the stored baseline's composite score (the baseline does not
occur in the formula at all). -/
theorem analyzeFrame_morphology_vs_empty (conv : Scalar3 → Scalar3)
    (st : ChangeDetectorState) (instances : List PlantInstance)
    (hv : st.baseline.isValid = true) :
    (analyzeFrame conv st instances).1.morphologyChange =
      |calculateMorphologyScore instances -
        calculateMorphologyScore ([] : List PlantInstance)| ∧
    calculateMorphologyScore ([] : List PlantInstance) = 0 := by
  constructor
  · simp only [analyzeFrame, hv, Bool.not_true, Bool.false_eq_true, if_false]
  · rfl

/-- Witness for C5 at a baselined detector and the empty instance list. -/
theorem analyzeFrame_morphology_vs_empty_witness :
    (analyzeFrame (fun c => c) ⟨{ isValid := true }⟩ []).1.morphologyChange =
      |calculateMorphologyScore ([] : List PlantInstance) -
        calculateMorphologyScore ([] : List PlantInstance)| ∧
    calculateMorphologyScore ([] : List PlantInstance) = 0 :=
  analyzeFrame_morphology_vs_empty (fun c => c) ⟨{ isValid := true }⟩ [] rfl

/-- Claim C1: on a baselined detector, `analyzeFrame` reports a significant
change exactly when at least one threshold trips: relative area change
(`|Δarea|/baselineArea`, 0 when the baseline area is 0) above 10%, absolute
plant-count change at least 1, absolute H difference above 8, absolute S
difference above 12, absolute V difference above 15, or morphology change
above 0.08. -/
theorem analyzeFrame_significance_iff (conv : Scalar3 → Scalar3)
    (st : ChangeDetectorState) (instances : List PlantInstance)
    (hv : st.baseline.isValid = true) (hA : 0 ≤ st.baseline.totalArea) :
    ((analyzeFrame conv st instances).1.significantChange = true ↔
      ((if st.baseline.totalArea = 0 then (0 : ℚ)
        else |(computeBaseline conv instances).totalArea - st.baseline.totalArea| /
          st.baseline.totalArea) > 1 / 10 ∨
       1 ≤ |(computeBaseline conv instances).plantCount - st.baseline.plantCount| ∨
       |(computeBaseline conv instances).avgColorH - st.baseline.avgColorH| > 8 ∨
       |(computeBaseline conv instances).avgColorS - st.baseline.avgColorS| > 12 ∨
       |(computeBaseline conv instances).avgColorV - st.baseline.avgColorV| > 15 ∨
       |calculateMorphologyScore instances -
         calculateMorphologyScore ([] : List PlantInstance)| > 2 / 25)) := by
  have harea : (if st.baseline.totalArea > 0 then
      |(computeBaseline conv instances).totalArea - st.baseline.totalArea| /
        st.baseline.totalArea else 0) =
      (if st.baseline.totalArea = 0 then (0 : ℚ)
        else |(computeBaseline conv instances).totalArea - st.baseline.totalArea| /
          st.baseline.totalArea) := by
    rcases hA.eq_or_lt with h0 | hpos
    · rw [if_neg (by rw [← h0]; exact lt_irrefl 0), if_pos h0.symm]
    · rw [if_pos hpos, if_neg hpos.ne']
  simp only [analyzeFrame, hv, Bool.not_true, Bool.false_eq_true, if_false,
    AREA_CHANGE_THRESHOLD, COUNT_CHANGE_THRESHOLD, COLOR_CHANGE_THRESHOLD_H,
    COLOR_CHANGE_THRESHOLD_S, COLOR_CHANGE_THRESHOLD_V,
    MORPHOLOGY_CHANGE_THRESHOLD, Bool.or_eq_true, decide_eq_true_eq,
    ge_iff_le, harea]
  tauto

/-- Witness for C1 at a baselined detector with zero baseline area and the
empty instance list: no threshold trips and no significance is reported. -/
theorem analyzeFrame_significance_iff_witness :
    (analyzeFrame (fun c => c) ⟨{ isValid := true }⟩ []).1.significantChange = true ↔
      ((if ({ isValid := true } : BaselineData).totalArea = 0 then (0 : ℚ)
        else |(computeBaseline (fun c => c) []).totalArea -
          ({ isValid := true } : BaselineData).totalArea| /
          ({ isValid := true } : BaselineData).totalArea) > 1 / 10 ∨
       1 ≤ |(computeBaseline (fun c => c) []).plantCount -
         ({ isValid := true } : BaselineData).plantCount| ∨
       |(computeBaseline (fun c => c) []).avgColorH -
         ({ isValid := true } : BaselineData).avgColorH| > 8 ∨
       |(computeBaseline (fun c => c) []).avgColorS -
         ({ isValid := true } : BaselineData).avgColorS| > 12 ∨
       |(computeBaseline (fun c => c) []).avgColorV -
         ({ isValid := true } : BaselineData).avgColorV| > 15 ∨
       |calculateMorphologyScore [] -
         calculateMorphologyScore ([] : List PlantInstance)| > 2 / 25) :=
  analyzeFrame_significance_iff (fun c => c) ⟨{ isValid := true }⟩ [] rfl
    (by norm_num)
